import Mathlib

/-!
# The Badsocks outbound adapter (`outbound/badsocks.go`)

A shallow embedding of the adapter's constructor and methods, and theorems
about which collaborator each call is dispatched to.

Conventions of the embedding.

* The collaborators (generic dialer, cipher method, multiplexing client,
  UDP-over-TCP client, logger) are Go interface or pointer values; each is a
  record of functions over an abstract external state `σ` (the network, the
  pools of the clients, the log sink).
* A Go result pair `(net.Conn, error)` is a pair `Conn × Option Error`;
  `Conn.nil` and `none` are Go's `nil`.
* A method with a pointer receiver takes the adapter and the world and gives
  back its result, the adapter after the call and the world after the call.
* `World.calls` records, in order, the calls the adapter's own code makes on
  its collaborators. Calls a collaborator makes in turn (the multiplexing
  client dialling through the adapter's raw dialer, say) happen inside that
  collaborator's function and are not recorded.
-/

namespace Outbound

/-! ## Values -/

/-- The address type `M.Socksaddr`: a host and a port. -/
structure Socksaddr where
  Fqdn : String
  Port : Nat
deriving DecidableEq, Repr

/-- Go `error` values. `ErrUnknownNetwork` is `N.ErrUnknownNetwork`,
`extend cause message` is `E.Extend(cause, message)`, and `other` is an error
made by a collaborator. -/
inductive Error where
  | other (text : String)
  | ErrUnknownNetwork
  | extend (cause : Error) (message : String)
deriving DecidableEq, Repr

/-- Values of the interfaces `net.Conn` and `net.PacketConn`. `handle` is a
connection made by a collaborator; `bindPacketConn c d` is
`bufio.NewBindPacketConn(c, d)`, the packet connection `c` bound to the one
peer `d`. -/
inductive Conn where
  | nil
  | handle (id : Nat)
  | bindPacketConn (conn : Conn) (destination : Socksaddr)
deriving DecidableEq, Repr

/-- A Go result pair `(net.Conn, error)`. -/
abbrev GoRet := Conn × Option Error

/-- The outcome of a call that may panic. -/
inductive Outcome (α : Type) where
  | ret (a : α)
  | panicked
deriving DecidableEq, Repr

/-- The constant `N.NetworkTCP`. -/
def NetworkTCP : String := "tcp"

/-- The constant `N.NetworkUDP`. -/
def NetworkUDP : String := "udp"

/-! ## Request context -/

/-- The metadata record `adapter.InboundContext`, with the two fields the
adapter writes. -/
structure InboundContext where
  Outbound : String
  Destination : Socksaddr
deriving DecidableEq, Repr

/-- A `context.Context`: the caller's context and the metadata record attached
to it, if any. -/
structure Context where
  id : Nat
  metadata : Option InboundContext
deriving DecidableEq, Repr

/-- Modelled from the spec: `adapter.AppendContext` is not under src/. It
gives back the metadata record attached to the context, attaching a fresh one
to a derived context when there is none. -/
def AppendContext (ctx : Context) : Context × InboundContext :=
  match ctx.metadata with
  | some metadata => (ctx, metadata)
  | none => ({ ctx with metadata := some ⟨"", ⟨"", 0⟩⟩ }, ⟨"", ⟨"", 0⟩⟩)

/-- The three opening statements of every dial method:
`ctx, metadata := adapter.AppendContext(ctx)`, `metadata.Outbound = h.tag`,
`metadata.Destination = destination`. The record is written through the pointer
held by the context. -/
def attachMetadata (ctx : Context) (tag : String) (destination : Socksaddr) : Context :=
  let (ctx, metadata) := AppendContext ctx
  let metadata := { metadata with Outbound := tag }
  let metadata := { metadata with Destination := destination }
  { ctx with metadata := some metadata }

/-! ## Collaborators -/

/-- The interface `N.Dialer`. -/
structure NDialer (σ : Type) where
  DialContext : Context → String → Socksaddr → σ → GoRet × σ
  ListenPacket : Context → Socksaddr → σ → GoRet × σ

/-- The interface `shadowsocks.Method`, with the two wrappers the adapter
uses. -/
structure Method (σ : Type) where
  DialEarlyConn : Conn → Socksaddr → σ → Conn × σ
  DialPacketConn : Conn → σ → Conn × σ

/-- The interface `log.ContextLogger`, with the one level the adapter uses. -/
structure ContextLogger (σ : Type) where
  InfoContext : Context → String → Socksaddr → σ → σ

/-- The methods of a non-nil `*uot.Client`. -/
structure UotClient (σ : Type) where
  DialContext : Context → String → Socksaddr → σ → GoRet × σ
  ListenPacket : Context → Socksaddr → σ → GoRet × σ

/-- The methods of a non-nil `*mux.Client`. -/
structure MuxClient (σ : Type) where
  DialContext : Context → String → Socksaddr → σ → GoRet × σ
  ListenPacket : Context → Socksaddr → σ → GoRet × σ
  Reset : σ → σ
  Close : σ → Option Error × σ

/-- The value `adapter.Router`; the adapter only stores it and hands it on. -/
structure Router where
  id : Nat
deriving DecidableEq, Repr

/-! ## The adapter -/

/-- The embedded struct `myOutboundAdapter`. -/
structure myOutboundAdapter (σ : Type) where
  protocol : String
  network : List String
  router : Router
  logger : ContextLogger σ
  tag : String

/-- The struct `Badsocks`. The two pointer fields are `none` when nil. -/
structure Badsocks (σ : Type) extends myOutboundAdapter σ where
  dialer : NDialer σ
  method : Method σ
  serverAddr : Socksaddr
  uotClient : Option (UotClient σ)
  multiplexDialer : Option (MuxClient σ)

/-- A call made by the adapter's own code on a collaborator. -/
inductive Call where
  | NewMethod (name : String) (password : String)
  | dialerNew
  | NewClientWithOptions
  | InfoContext (message : String) (destination : Socksaddr)
  | dialerDialContext (network : String) (address : Socksaddr)
  | DialEarlyConn (conn : Conn) (destination : Socksaddr)
  | DialPacketConn (conn : Conn)
  | uotDialContext (network : String) (destination : Socksaddr)
  | uotListenPacket (destination : Socksaddr)
  | muxDialContext (network : String) (destination : Socksaddr)
  | muxListenPacket (destination : Socksaddr)
  | muxReset
  | Close
  | relayNewConnection
  | relayNewPacketConnection
deriving DecidableEq, Repr

/-- The external state and the record of the adapter's calls so far. -/
structure World (σ : Type) where
  ext : σ
  calls : List Call

/-- Append one call to the record. -/
def World.record {σ : Type} (w : World σ) (c : Call) : World σ :=
  { w with calls := w.calls ++ [c] }

/-- The statement `h.logger.InfoContext(ctx, message, destination)`. -/
def logInfo {σ : Type} (h : Badsocks σ) (ctx : Context) (message : String)
    (destination : Socksaddr) (w : World σ) : World σ :=
  { ext := h.logger.InfoContext ctx message destination w.ext
    calls := w.calls ++ [Call.InfoContext message destination] }

/-- The call `h.dialer.DialContext(ctx, network, address)`. -/
def callDialer {σ : Type} (h : Badsocks σ) (ctx : Context) (network : String)
    (address : Socksaddr) (w : World σ) : GoRet × World σ :=
  let r := h.dialer.DialContext ctx network address w.ext
  (r.1, { ext := r.2, calls := w.calls ++ [Call.dialerDialContext network address] })

/-- The call `h.method.DialEarlyConn(conn, destination)`. -/
def callDialEarlyConn {σ : Type} (h : Badsocks σ) (conn : Conn) (destination : Socksaddr)
    (w : World σ) : Conn × World σ :=
  let r := h.method.DialEarlyConn conn destination w.ext
  (r.1, { ext := r.2, calls := w.calls ++ [Call.DialEarlyConn conn destination] })

/-- The call `h.method.DialPacketConn(conn)`. -/
def callDialPacketConn {σ : Type} (h : Badsocks σ) (conn : Conn) (w : World σ) :
    Conn × World σ :=
  let r := h.method.DialPacketConn conn w.ext
  (r.1, { ext := r.2, calls := w.calls ++ [Call.DialPacketConn conn] })

/-! ## The raw dialer `badsocksDialer` (the adapter under its second type) -/

/-- The method `(*badsocksDialer).DialContext`. `NetworkName` is the
normaliser `N.NetworkName` of the network library. -/
def badsocksDialer.DialContext {σ : Type} (NetworkName : String → String) (h : Badsocks σ)
    (ctx : Context) (network : String) (destination : Socksaddr) (w : World σ) :
    GoRet × Badsocks σ × World σ :=
  let ctx := attachMetadata ctx h.tag destination
  if NetworkName network = NetworkTCP then
    let r := callDialer h ctx NetworkTCP h.serverAddr w
    match r.1.2 with
    | some err => ((Conn.nil, some err), h, r.2)
    | none =>
      let c := callDialEarlyConn h r.1.1 destination r.2
      ((c.1, none), h, c.2)
  else if NetworkName network = NetworkUDP then
    let r := callDialer h ctx NetworkUDP h.serverAddr w
    match r.1.2 with
    | some err => ((Conn.nil, some err), h, r.2)
    | none =>
      let c := callDialPacketConn h r.1.1 r.2
      ((Conn.bindPacketConn c.1 destination, none), h, c.2)
  else
    ((Conn.nil, some (Error.extend Error.ErrUnknownNetwork network)), h, w)

/-- The method `(*badsocksDialer).ListenPacket`. -/
def badsocksDialer.ListenPacket {σ : Type} (h : Badsocks σ) (ctx : Context)
    (destination : Socksaddr) (w : World σ) : GoRet × Badsocks σ × World σ :=
  let ctx := attachMetadata ctx h.tag destination
  let r := callDialer h ctx NetworkUDP h.serverAddr w
  match r.1.2 with
  | some err => ((Conn.nil, some err), h, r.2)
  | none =>
    let c := callDialPacketConn h r.1.1 r.2
    ((c.1, none), h, c.2)

/-- The conversion `(*badsocksDialer)(outbound)` handed to a client as its
`N.Dialer`: the two methods above, run on the external state. What the raw
dialer does on behalf of a client is the client's business and is not added to
the record of the adapter's own calls. -/
def badsocksDialer.asDialer {σ : Type} (NetworkName : String → String) (h : Badsocks σ) :
    NDialer σ where
  DialContext := fun ctx network destination s =>
    let r := badsocksDialer.DialContext NetworkName h ctx network destination ⟨s, []⟩
    (r.1, r.2.2.ext)
  ListenPacket := fun ctx destination s =>
    let r := badsocksDialer.ListenPacket h ctx destination ⟨s, []⟩
    (r.1, r.2.2.ext)

/-! ## The methods of `Badsocks` -/

/-- The call `h.uotClient.DialContext(ctx, network, destination)`. The methods
of `uot.Client` read the receiver's `Dialer` field, so on a nil receiver the
call panics with a nil pointer dereference. -/
def callUotDialContext {σ : Type} (h : Badsocks σ) (ctx : Context) (network : String)
    (destination : Socksaddr) (w : World σ) : Outcome GoRet × World σ :=
  match h.uotClient with
  | none => (Outcome.panicked, w.record (Call.uotDialContext network destination))
  | some u =>
    let r := u.DialContext ctx network destination w.ext
    (Outcome.ret r.1,
      { ext := r.2, calls := w.calls ++ [Call.uotDialContext network destination] })

/-- The call `h.uotClient.ListenPacket(ctx, destination)`; it panics on a nil
receiver like `callUotDialContext`. -/
def callUotListenPacket {σ : Type} (h : Badsocks σ) (ctx : Context)
    (destination : Socksaddr) (w : World σ) : Outcome GoRet × World σ :=
  match h.uotClient with
  | none => (Outcome.panicked, w.record (Call.uotListenPacket destination))
  | some u =>
    let r := u.ListenPacket ctx destination w.ext
    (Outcome.ret r.1, { ext := r.2, calls := w.calls ++ [Call.uotListenPacket destination] })

/-- The method `(*Badsocks).DialContext`. -/
def Badsocks.DialContext {σ : Type} (NetworkName : String → String) (h : Badsocks σ)
    (ctx : Context) (network : String) (destination : Socksaddr) (w : World σ) :
    Outcome GoRet × Badsocks σ × World σ :=
  let ctx := attachMetadata ctx h.tag destination
  match h.multiplexDialer with
  | none =>
    if NetworkName network = NetworkTCP then
      let w := logInfo h ctx "outbound connection to " destination w
      let r := badsocksDialer.DialContext NetworkName h ctx network destination w
      (Outcome.ret r.1, r.2)
    else if NetworkName network = NetworkUDP then
      let w := logInfo h ctx "outbound connect packet connection to " destination w
      let r := callUotDialContext h ctx network destination w
      (r.1, h, r.2)
    else
      let r := badsocksDialer.DialContext NetworkName h ctx network destination w
      (Outcome.ret r.1, r.2)
  | some m =>
    let w :=
      if NetworkName network = NetworkTCP then
        logInfo h ctx "outbound multiplex connection to " destination w
      else if NetworkName network = NetworkUDP then
        logInfo h ctx "outbound multiplex packet connection to " destination w
      else w
    let r := m.DialContext ctx network destination w.ext
    (Outcome.ret r.1, h,
      { ext := r.2, calls := w.calls ++ [Call.muxDialContext network destination] })

/-- The method `(*Badsocks).ListenPacket`. -/
def Badsocks.ListenPacket {σ : Type} (h : Badsocks σ) (ctx : Context)
    (destination : Socksaddr) (w : World σ) : Outcome GoRet × Badsocks σ × World σ :=
  let ctx := attachMetadata ctx h.tag destination
  match h.multiplexDialer with
  | none =>
    let w := logInfo h ctx "outbound packet connection to " destination w
    let r := callUotListenPacket h ctx destination w
    (r.1, h, r.2)
  | some m =>
    let w := logInfo h ctx "outbound multiplex packet connection to " destination w
    let r := m.ListenPacket ctx destination w.ext
    (Outcome.ret r.1, h, { ext := r.2, calls := w.calls ++ [Call.muxListenPacket destination] })

/-- The method `(*Badsocks).InterfaceUpdated`. -/
def Badsocks.InterfaceUpdated {σ : Type} (h : Badsocks σ) (w : World σ) :
    Option Error × Badsocks σ × World σ :=
  match h.multiplexDialer with
  | some m => (none, h, { ext := m.Reset w.ext, calls := w.calls ++ [Call.muxReset] })
  | none => (none, h, w)

/-- The interface `io.Closer`. -/
structure Closer (σ : Type) where
  Close : σ → Option Error × σ

/-- Modelled from the spec: `common.PtrOrNil` of the sing library is not under
src/. It turns a nil pointer into the nil interface value and leaves any other
pointer as it is; here the pointer is a multiplexing client, seen as a
closer. -/
def PtrOrNil {σ : Type} (ptr : Option (MuxClient σ)) : Option (Closer σ) :=
  match ptr with
  | none => none
  | some m => some ⟨m.Close⟩

/-- Modelled from the spec: `common.Close` of the sing library is not under
src/. It skips the nil values, closes each of the others in order and gives
back the last error met, or nil. -/
def commonClose {σ : Type} (closers : List (Option (Closer σ))) (w : World σ) :
    Option Error × World σ :=
  closers.foldl
    (fun (acc : Option Error × World σ) closer =>
      match closer with
      | none => acc
      | some c =>
        let r := c.Close acc.2.ext
        let w := { ext := r.2, calls := acc.2.calls ++ [Call.Close] }
        match r.1 with
        | some err => (some err, w)
        | none => (acc.1, w))
    (none, w)

/-- The method `(*Badsocks).Close`. -/
def Badsocks.Close {σ : Type} (h : Badsocks σ) (w : World σ) :
    Option Error × Badsocks σ × World σ :=
  let r := commonClose [PtrOrNil h.multiplexDialer] w
  (r.1, h, r.2)

/-- The adapter as the relay routines receive it, through the interface
`N.Dialer`: its two dial methods, run on the external state. -/
structure ThisDialer (σ : Type) where
  DialContext : Context → String → Socksaddr → σ → Outcome GoRet × σ
  ListenPacket : Context → Socksaddr → σ → Outcome GoRet × σ

/-- The adapter as an `N.Dialer` argument. -/
def Badsocks.asDialer {σ : Type} (NetworkName : String → String) (h : Badsocks σ) :
    ThisDialer σ where
  DialContext := fun ctx network destination s =>
    let r := Badsocks.DialContext NetworkName h ctx network destination ⟨s, []⟩
    (r.1, r.2.2.ext)
  ListenPacket := fun ctx destination s =>
    let r := Badsocks.ListenPacket h ctx destination ⟨s, []⟩
    (r.1, r.2.2.ext)

/-- Modelled from the spec: the package functions `NewConnection` and
`NewPacketConnection` (the shared connection-relay routines of the outbound
package) are not under src/. Each receives the adapter as an `N.Dialer`, the
accepted connection and its metadata, and relays the connection through the
adapter; what it does is left open. -/
structure Relay (σ : Type) where
  NewConnection : Context → ThisDialer σ → Conn → InboundContext → σ →
    Outcome (Option Error) × σ
  NewPacketConnection : Context → ThisDialer σ → Conn → InboundContext → σ →
    Outcome (Option Error) × σ

/-- The method `(*Badsocks).NewConnection`. -/
def Badsocks.NewConnection {σ : Type} (NetworkName : String → String) (relay : Relay σ)
    (h : Badsocks σ) (ctx : Context) (conn : Conn) (metadata : InboundContext)
    (w : World σ) : Outcome (Option Error) × Badsocks σ × World σ :=
  let r := relay.NewConnection ctx (Badsocks.asDialer NetworkName h) conn metadata w.ext
  (r.1, h, { ext := r.2, calls := w.calls ++ [Call.relayNewConnection] })

/-- The method `(*Badsocks).NewPacketConnection`. -/
def Badsocks.NewPacketConnection {σ : Type} (NetworkName : String → String)
    (relay : Relay σ) (h : Badsocks σ) (ctx : Context) (conn : Conn)
    (metadata : InboundContext) (w : World σ) :
    Outcome (Option Error) × Badsocks σ × World σ :=
  let r := relay.NewPacketConnection ctx (Badsocks.asDialer NetworkName h) conn metadata w.ext
  (r.1, h, { ext := r.2, calls := w.calls ++ [Call.relayNewPacketConnection] })

/-! ## Construction -/

/-- The struct `shadowsocks.MethodOptions`, with the field the constructor
sets. -/
structure MethodOptions where
  Password : String
deriving DecidableEq, Repr

/-- The struct `option.DialerOptions`; the adapter hands it on unread. -/
structure DialerOptions where
  BindInterface : String
  RoutingMark : Nat
deriving DecidableEq, Repr

/-- The struct `option.ServerOptions`. -/
structure ServerOptions where
  Server : String
  ServerPort : Nat
deriving DecidableEq, Repr

/-- The struct `option.MultiplexOptions`; the adapter hands it on unread. -/
structure MultiplexOptions where
  Enabled : Bool
  MaxConnections : Nat
  MinStreams : Nat
  MaxStreams : Nat
deriving DecidableEq, Repr

/-- The struct `option.BadsocksOutboundOptions`. -/
structure BadsocksOutboundOptions extends DialerOptions, ServerOptions where
  Password : String
  MultiplexOptions : Option MultiplexOptions
deriving DecidableEq, Repr

/-- Modelled from the spec: `common.PtrValueOrDefault` of the sing library is
not under src/. It gives the value pointed to, or the zero value for a nil
pointer. -/
def PtrValueOrDefault (ptr : Option MultiplexOptions) : MultiplexOptions :=
  match ptr with
  | some v => v
  | none => ⟨false, 0, 0, 0⟩

/-- The constructors and constants of the collaborating packages: the constant
`C.TypeShadowsocks`, `badsocks.MethodName` and `badsocks.NewMethod`,
`dialer.New`, the method `Build` of `option.ServerOptions`,
`mux.NewClientWithOptions`, and the behaviour of the struct
`uot.Client{Dialer: d}`. -/
structure Deps (σ : Type) where
  TypeShadowsocks : String
  MethodName : String
  Build : ServerOptions → Socksaddr
  NewMethod : Context → String → MethodOptions → σ → Except Error (Method σ) × σ
  dialerNew : Router → DialerOptions → σ → NDialer σ × σ
  NewClientWithOptions : NDialer σ → MultiplexOptions → σ →
    (Option (MuxClient σ) × Option Error) × σ
  uotClient : NDialer σ → UotClient σ

/-- The constructor `NewBadsocks`. The result pair is `(*Badsocks, error)`. -/
def NewBadsocks {σ : Type} (NetworkName : String → String) (deps : Deps σ) (ctx : Context)
    (router : Router) (logger : ContextLogger σ) (tag : String)
    (options : BadsocksOutboundOptions) (w : World σ) :
    (Option (Badsocks σ) × Option Error) × World σ :=
  let m := deps.NewMethod ctx deps.MethodName ⟨options.Password⟩ w.ext
  let w : World σ :=
    { ext := m.2, calls := w.calls ++ [Call.NewMethod deps.MethodName options.Password] }
  match m.1 with
  | Except.error err => ((none, some err), w)
  | Except.ok method =>
    let d := deps.dialerNew router options.toDialerOptions w.ext
    let w : World σ := { ext := d.2, calls := w.calls ++ [Call.dialerNew] }
    let outbound : Badsocks σ :=
      { protocol := deps.TypeShadowsocks
        network := [NetworkTCP, NetworkUDP]
        router := router
        logger := logger
        tag := tag
        dialer := d.1
        method := method
        serverAddr := deps.Build options.toServerOptions
        uotClient := none
        multiplexDialer := none }
    let c := deps.NewClientWithOptions (badsocksDialer.asDialer NetworkName outbound)
      (PtrValueOrDefault options.MultiplexOptions) w.ext
    let w : World σ := { ext := c.2, calls := w.calls ++ [Call.NewClientWithOptions] }
    let outbound : Badsocks σ := { outbound with multiplexDialer := c.1.1 }
    match c.1.2 with
    | some err => ((none, some err), w)
    | none =>
      match outbound.multiplexDialer with
      | none =>
        ((some { outbound with
            uotClient := some (deps.uotClient (badsocksDialer.asDialer NetworkName outbound)) },
          none), w)
      | some _ => ((some outbound, none), w)

/-! ## Runs of method calls -/

/-- A call of one of the six methods of a built adapter, with its arguments. -/
inductive Op where
  | DialContext (ctx : Context) (network : String) (destination : Socksaddr)
  | ListenPacket (ctx : Context) (destination : Socksaddr)
  | NewConnection (ctx : Context) (conn : Conn) (metadata : InboundContext)
  | NewPacketConnection (ctx : Context) (conn : Conn) (metadata : InboundContext)
  | InterfaceUpdated
  | Close
deriving DecidableEq, Repr

/-- One method call on the adapter: the adapter and the world after it. -/
def step {σ : Type} (NetworkName : String → String) (relay : Relay σ)
    (hw : Badsocks σ × World σ) (op : Op) : Badsocks σ × World σ :=
  match op with
  | Op.DialContext ctx network destination =>
    (Badsocks.DialContext NetworkName hw.1 ctx network destination hw.2).2
  | Op.ListenPacket ctx destination => (Badsocks.ListenPacket hw.1 ctx destination hw.2).2
  | Op.NewConnection ctx conn metadata =>
    (Badsocks.NewConnection NetworkName relay hw.1 ctx conn metadata hw.2).2
  | Op.NewPacketConnection ctx conn metadata =>
    (Badsocks.NewPacketConnection NetworkName relay hw.1 ctx conn metadata hw.2).2
  | Op.InterfaceUpdated => (Badsocks.InterfaceUpdated hw.1 hw.2).2
  | Op.Close => (Badsocks.Close hw.1 hw.2).2

/-- A sequence of method calls on the adapter, one after the other. -/
def run {σ : Type} (NetworkName : String → String) (relay : Relay σ) (ops : List Op)
    (hw : Badsocks σ × World σ) : Badsocks σ × World σ :=
  ops.foldl (step NetworkName relay) hw

/-! ## Reading the record of calls -/

/-- The calls recorded between the world `before` and the later world
`after`. -/
def World.newCalls {σ : Type} (before after : World σ) : List Call :=
  after.calls.drop before.calls.length

/-- A call on the generic dialer. -/
def Call.isDialer : Call → Bool
  | Call.dialerDialContext _ _ => true
  | Call.dialerNew => true
  | _ => false

/-- A call on the cipher method. -/
def Call.isCipher : Call → Bool
  | Call.NewMethod _ _ => true
  | Call.DialEarlyConn _ _ => true
  | Call.DialPacketConn _ => true
  | _ => false

/-- A call on the tunneling client. -/
def Call.isUot : Call → Bool
  | Call.uotDialContext _ _ => true
  | Call.uotListenPacket _ => true
  | _ => false

/-- A call on the multiplexing client (a `Close` is one: the adapter closes
nothing else). -/
def Call.isMux : Call → Bool
  | Call.NewClientWithOptions => true
  | Call.muxDialContext _ _ => true
  | Call.muxListenPacket _ => true
  | Call.muxReset => true
  | Call.Close => true
  | _ => false

/-! ## Concrete collaborators

The external state is a counter of the effects performed so far; a connection
handle carries the count at which it was made. -/

/-- The normaliser `N.NetworkName` of the network library: by prefix, to
`tcp`, `udp` or `ip`, and any other name unchanged. -/
def NetworkNameStd (network : String) : String :=
  if ("tcp".toList).isPrefixOf network.toList then "tcp"
  else if ("udp".toList).isPrefixOf network.toList then "udp"
  else if ("ip".toList).isPrefixOf network.toList then "ip"
  else network

/-- A logger that counts its lines. -/
def demoLogger : ContextLogger Nat where
  InfoContext := fun _ _ _ s => s + 1

/-- A generic dialer that always connects. -/
def demoDialer : NDialer Nat where
  DialContext := fun _ _ _ s => ((Conn.handle s, none), s + 1)
  ListenPacket := fun _ _ s => ((Conn.handle s, none), s + 1)

/-- A generic dialer that never connects. -/
def refusingDialer : NDialer Nat where
  DialContext := fun _ _ _ s => ((Conn.nil, some (Error.other "connection refused")), s + 1)
  ListenPacket := fun _ _ s => ((Conn.nil, some (Error.other "connection refused")), s + 1)

/-- A cipher method whose wrappers give fresh handles. -/
def demoMethod : Method Nat where
  DialEarlyConn := fun _ destination s => (Conn.handle (1000 + destination.Port + s), s + 1)
  DialPacketConn := fun _ s => (Conn.handle (2000 + s), s + 1)

/-- A multiplexing client: it opens a stream for `tcp` and `udp` and rejects
any other network by itself, without any effect. -/
def demoMux : MuxClient Nat where
  DialContext := fun _ network _ s =>
    if NetworkNameStd network = NetworkTCP ∨ NetworkNameStd network = NetworkUDP then
      ((Conn.handle (3000 + s), none), s + 1)
    else ((Conn.nil, some (Error.extend Error.ErrUnknownNetwork network)), s)
  ListenPacket := fun _ _ s => ((Conn.handle (4000 + s), none), s + 1)
  Reset := fun s => s + 1
  Close := fun s => (none, s + 1)

/-- A multiplexing client whose `Close` fails. -/
def failingCloseMux : MuxClient Nat :=
  { demoMux with Close := fun s => (some (Error.other "close failed"), s + 1) }

/-- A tunneling client over the dialer `d`: it dials a stream through `d` and
frames the datagrams inside it. -/
def demoUot (d : NDialer Nat) : UotClient Nat where
  DialContext := fun ctx _ _ s => d.DialContext ctx NetworkTCP ⟨"sp.udp-over-tcp.arpa", 0⟩ s
  ListenPacket := fun ctx _ s => d.DialContext ctx NetworkTCP ⟨"sp.udp-over-tcp.arpa", 0⟩ s

/-- The collaborating packages: an empty password is rejected, and a
multiplexing client is made only when multiplexing is enabled. -/
def demoDeps : Deps Nat where
  TypeShadowsocks := "shadowsocks"
  MethodName := "badsocks"
  Build := fun o => ⟨o.Server, o.ServerPort⟩
  NewMethod := fun _ _ o s =>
    if o.Password = "" then (Except.error (Error.other "missing password"), s)
    else (Except.ok demoMethod, s)
  dialerNew := fun _ _ s => (demoDialer, s)
  NewClientWithOptions := fun _ o s =>
    if o.Enabled then ((some demoMux, none), s) else ((none, none), s)
  uotClient := demoUot

/-- The collaborating packages with a multiplexing constructor that fails. -/
def brokenMuxDeps : Deps Nat :=
  { demoDeps with
    NewClientWithOptions := fun _ _ s => ((none, some (Error.other "unknown protocol")), s) }

/-- An adapter for the server `proxy.example:8388`, with the given clients. -/
def demoAdapter (uot : Option (UotClient Nat)) (mux : Option (MuxClient Nat)) :
    Badsocks Nat where
  protocol := "shadowsocks"
  network := [NetworkTCP, NetworkUDP]
  router := ⟨0⟩
  logger := demoLogger
  tag := "bad-out"
  dialer := demoDialer
  method := demoMethod
  serverAddr := ⟨"proxy.example", 8388⟩
  uotClient := uot
  multiplexDialer := mux

/-- The options of the scenario: server `proxy.example:8388`, password `p@ss`. -/
def demoOptions (mux : Option MultiplexOptions) : BadsocksOutboundOptions where
  BindInterface := ""
  RoutingMark := 0
  Server := "proxy.example"
  ServerPort := 8388
  Password := "p@ss"
  MultiplexOptions := mux

/-- Relay routines that dial the destination of the metadata through the
adapter and report the error of the dial. -/
def demoRelay : Relay Nat where
  NewConnection := fun ctx this _ metadata s =>
    match this.DialContext ctx NetworkTCP metadata.Destination s with
    | (Outcome.ret r, s1) => (Outcome.ret r.2, s1)
    | (Outcome.panicked, s1) => (Outcome.panicked, s1)
  NewPacketConnection := fun ctx this _ metadata s =>
    match this.ListenPacket ctx metadata.Destination s with
    | (Outcome.ret r, s1) => (Outcome.ret r.2, s1)
    | (Outcome.panicked, s1) => (Outcome.panicked, s1)

/-- A caller context without metadata. -/
def ctx0 : Context := ⟨0, none⟩

/-- The world before any call. -/
def w0 : World Nat := ⟨0, []⟩

/-! ## Lemmas on the context and the raw dialer -/

theorem attachMetadata_metadata (ctx : Context) (tag : String) (destination : Socksaddr) :
    (attachMetadata ctx tag destination).metadata = some ⟨tag, destination⟩ := by
  unfold attachMetadata AppendContext
  cases ctx.metadata <;> rfl

theorem attachMetadata_id (ctx : Context) (tag : String) (destination : Socksaddr) :
    (attachMetadata ctx tag destination).id = ctx.id := by
  unfold attachMetadata AppendContext
  cases ctx.metadata <;> rfl

/-- Attaching the same metadata twice is attaching it once: the raw dialer,
called by `Badsocks.DialContext`, passes on the context it was given. -/
theorem attachMetadata_idem (ctx : Context) (tag : String) (destination : Socksaddr) :
    attachMetadata (attachMetadata ctx tag destination) tag destination
      = attachMetadata ctx tag destination := by
  unfold attachMetadata AppendContext
  cases ctx.metadata <;> rfl

/-! ## Dispatch with a multiplexing client -/

/-- C1. With a multiplexing client `m` present, `Badsocks.DialContext` (any
network, any destination) returns exactly what `m.DialContext` returns for the
same network and destination, called after at most one log line, and
`Badsocks.ListenPacket` returns exactly what `m.ListenPacket` returns; the
calls recorded during either are log lines and the one call on `m`, so none
is on the generic dialer, the cipher method or the tunneling client. -/
theorem mux_present_routes_to_mux {σ : Type} (N : String → String) (h : Badsocks σ)
    (m : MuxClient σ) (ctx : Context) (network : String) (d : Socksaddr) (w : World σ)
    (hm : h.multiplexDialer = some m) :
    (∃ w1 : World σ,
      (w1 = w ∨ ∃ msg, w1 = logInfo h (attachMetadata ctx h.tag d) msg d w) ∧
      Badsocks.DialContext N h ctx network d w =
        (Outcome.ret (m.DialContext (attachMetadata ctx h.tag d) network d w1.ext).1, h,
          ⟨(m.DialContext (attachMetadata ctx h.tag d) network d w1.ext).2,
            w1.calls ++ [Call.muxDialContext network d]⟩)) ∧
    Badsocks.ListenPacket h ctx d w =
      (Outcome.ret (m.ListenPacket (attachMetadata ctx h.tag d) d
          (h.logger.InfoContext (attachMetadata ctx h.tag d)
            "outbound multiplex packet connection to " d w.ext)).1, h,
        ⟨(m.ListenPacket (attachMetadata ctx h.tag d) d
          (h.logger.InfoContext (attachMetadata ctx h.tag d)
            "outbound multiplex packet connection to " d w.ext)).2,
          w.calls ++ [Call.InfoContext "outbound multiplex packet connection to " d,
            Call.muxListenPacket d]⟩) ∧
    (∀ c ∈ World.newCalls w (Badsocks.DialContext N h ctx network d w).2.2,
      c.isDialer = false ∧ c.isCipher = false ∧ c.isUot = false) ∧
    (∀ c ∈ World.newCalls w (Badsocks.ListenPacket h ctx d w).2.2,
      c.isDialer = false ∧ c.isCipher = false ∧ c.isUot = false) := by
  refine ⟨?_, ?_, ?_, ?_⟩
  · unfold Badsocks.DialContext
    simp only [hm]
    by_cases ht : N network = NetworkTCP
    · exact ⟨_, Or.inr ⟨"outbound multiplex connection to ", rfl⟩, by rw [if_pos ht]⟩
    · by_cases hu : N network = NetworkUDP
      · exact ⟨_, Or.inr ⟨"outbound multiplex packet connection to ", rfl⟩,
          by rw [if_neg ht, if_pos hu]⟩
      · exact ⟨w, Or.inl rfl, by rw [if_neg ht, if_neg hu]⟩
  · unfold Badsocks.ListenPacket
    simp [hm, logInfo]
  · unfold Badsocks.DialContext
    simp only [hm]
    by_cases ht : N network = NetworkTCP
    · rw [if_pos ht]
      simp [logInfo, World.newCalls, Call.isDialer, Call.isCipher, Call.isUot]
    · by_cases hu : N network = NetworkUDP
      · rw [if_neg ht, if_pos hu]
        simp [logInfo, World.newCalls, Call.isDialer, Call.isCipher, Call.isUot]
      · rw [if_neg ht, if_neg hu]
        simp [World.newCalls, Call.isDialer, Call.isCipher, Call.isUot]
  · unfold Badsocks.ListenPacket
    simp [hm, logInfo, World.newCalls, Call.isDialer, Call.isCipher, Call.isUot]

/-- C1, on the adapter with the client `demoMux`: a `tcp` dial to
`example.com:443` and a listen for the same destination. -/
theorem mux_present_routes_to_mux_witness :
    (demoAdapter none (some demoMux)).multiplexDialer = some demoMux ∧
    (Badsocks.DialContext NetworkNameStd (demoAdapter none (some demoMux)) ctx0 "tcp"
        ⟨"example.com", 443⟩ w0).1 = Outcome.ret (Conn.handle 3001, none) ∧
    (Badsocks.DialContext NetworkNameStd (demoAdapter none (some demoMux)) ctx0 "tcp"
        ⟨"example.com", 443⟩ w0).2.2.calls =
      [Call.InfoContext "outbound multiplex connection to " ⟨"example.com", 443⟩,
        Call.muxDialContext "tcp" ⟨"example.com", 443⟩] ∧
    (Badsocks.ListenPacket (demoAdapter none (some demoMux)) ctx0 ⟨"example.com", 443⟩ w0).1 =
      Outcome.ret (Conn.handle 4001, none) := by
  have key := mux_present_routes_to_mux NetworkNameStd (demoAdapter none (some demoMux))
    demoMux ctx0 "tcp" ⟨"example.com", 443⟩ w0 rfl
  refine ⟨rfl, by decide, by decide, ?_⟩
  rw [key.2.1]
  rfl

/-! ## Dispatch without a multiplexing client -/

theorem NetworkUDP_ne_NetworkTCP : NetworkUDP ≠ NetworkTCP := by decide

/-- C2. Without a multiplexing client, a dial whose network normalises to
`tcp` logs one line, calls the generic dialer once, with network `tcp` and the
configured server address (not the destination), and, when that call `r` gives
no error, returns the cipher method's `DialEarlyConn` applied to the connection
the dialer gave and to the destination `d`, with a nil error. These three are
all the calls: the tunneling client is not called. -/
theorem plain_stream_dial {σ : Type} (N : String → String) (h : Badsocks σ) (ctx : Context)
    (network : String) (d : Socksaddr) (w : World σ) (r : GoRet × σ)
    (hm : h.multiplexDialer = none) (hN : N network = NetworkTCP)
    (hr : h.dialer.DialContext (attachMetadata ctx h.tag d) NetworkTCP h.serverAddr
      (h.logger.InfoContext (attachMetadata ctx h.tag d) "outbound connection to " d
        w.ext) = r)
    (hok : r.1.2 = none) :
    Badsocks.DialContext N h ctx network d w =
      (Outcome.ret ((h.method.DialEarlyConn r.1.1 d r.2).1, none), h,
        ⟨(h.method.DialEarlyConn r.1.1 d r.2).2,
          w.calls ++ [Call.InfoContext "outbound connection to " d,
            Call.dialerDialContext NetworkTCP h.serverAddr,
            Call.DialEarlyConn r.1.1 d]⟩) := by
  subst hr
  unfold Badsocks.DialContext badsocksDialer.DialContext
  simp only [hm, hN, if_true, attachMetadata_idem]
  simp only [callDialer, logInfo, callDialEarlyConn, hok]
  simp

/-- C2, on the scenario of the spec: server `proxy.example:8388`, no
multiplexing, a `tcp` dial to `example.com:443`. -/
theorem plain_stream_dial_witness :
    (demoAdapter none none).multiplexDialer = none ∧
    NetworkNameStd "tcp" = NetworkTCP ∧
    (Badsocks.DialContext NetworkNameStd (demoAdapter none none) ctx0 "tcp"
        ⟨"example.com", 443⟩ w0).1 = Outcome.ret (Conn.handle 1445, none) ∧
    (Badsocks.DialContext NetworkNameStd (demoAdapter none none) ctx0 "tcp"
        ⟨"example.com", 443⟩ w0).2.2.calls =
      [Call.InfoContext "outbound connection to " ⟨"example.com", 443⟩,
        Call.dialerDialContext "tcp" ⟨"proxy.example", 8388⟩,
        Call.DialEarlyConn (Conn.handle 1) ⟨"example.com", 443⟩] := by
  have key := plain_stream_dial NetworkNameStd (demoAdapter none none) ctx0 "tcp"
    ⟨"example.com", 443⟩ w0 ((Conn.handle 1, none), 2) rfl (by decide) rfl rfl
  refine ⟨rfl, by decide, ?_, ?_⟩
  · rw [key]; rfl
  · rw [key]; rfl

/-- Without a multiplexing client and with the tunneling client `u`, a dial
whose network normalises to `udp` and a listen each log one line and make one
call, on `u`, whose result they return. -/
theorem tunnel_dispatch {σ : Type} (N : String → String) (h : Badsocks σ)
    (u : UotClient σ) (ctx : Context) (network : String) (d : Socksaddr) (w : World σ)
    (hm : h.multiplexDialer = none) (hu : h.uotClient = some u)
    (hN : N network = NetworkUDP) :
    Badsocks.DialContext N h ctx network d w =
      (Outcome.ret (u.DialContext (attachMetadata ctx h.tag d) network d
          (h.logger.InfoContext (attachMetadata ctx h.tag d)
            "outbound connect packet connection to " d w.ext)).1, h,
        ⟨(u.DialContext (attachMetadata ctx h.tag d) network d
          (h.logger.InfoContext (attachMetadata ctx h.tag d)
            "outbound connect packet connection to " d w.ext)).2,
          w.calls ++ [Call.InfoContext "outbound connect packet connection to " d,
            Call.uotDialContext network d]⟩) ∧
    Badsocks.ListenPacket h ctx d w =
      (Outcome.ret (u.ListenPacket (attachMetadata ctx h.tag d) d
          (h.logger.InfoContext (attachMetadata ctx h.tag d)
            "outbound packet connection to " d w.ext)).1, h,
        ⟨(u.ListenPacket (attachMetadata ctx h.tag d) d
          (h.logger.InfoContext (attachMetadata ctx h.tag d)
            "outbound packet connection to " d w.ext)).2,
          w.calls ++ [Call.InfoContext "outbound packet connection to " d,
            Call.uotListenPacket d]⟩) := by
  constructor
  · unfold Badsocks.DialContext
    simp only [hm, hN, if_neg NetworkUDP_ne_NetworkTCP, if_true]
    simp [callUotDialContext, hu, logInfo]
  · unfold Badsocks.ListenPacket
    simp [hm, callUotListenPacket, hu, logInfo]

/-! ## Unknown networks -/

/-- C4, as stated, fails on an adapter with a multiplexing client: a dial for
the network `ip` is handed to the client, so a call on the multiplexing client
is made. -/
theorem unknown_network_reaches_mux :
    NetworkNameStd "ip" ≠ NetworkTCP ∧ NetworkNameStd "ip" ≠ NetworkUDP ∧
    (Badsocks.DialContext NetworkNameStd (demoAdapter none (some demoMux)) ctx0 "ip"
        ⟨"example.com", 443⟩ w0).2.2.calls = [Call.muxDialContext "ip" ⟨"example.com", 443⟩] ∧
    ¬ (∀ c ∈ (Badsocks.DialContext NetworkNameStd (demoAdapter none (some demoMux)) ctx0 "ip"
        ⟨"example.com", 443⟩ w0).2.2.calls, c.isMux = false) := by
  decide

/-- C4, amended. For a network that normalises to neither `tcp` nor `udp`: an
adapter without a multiplexing client fails with `ErrUnknownNetwork` extended
by the network name and returns no connection, and it calls no collaborator at
all (the world is unchanged); an adapter with a multiplexing client `m` calls
neither the generic dialer nor the tunneling client, but hands the request to
`m.DialContext`, once, and returns what that returns. -/
theorem unknown_network_rejected_without_mux {σ : Type} (N : String → String)
    (h : Badsocks σ) (ctx : Context) (network : String) (d : Socksaddr) (w : World σ)
    (ht : N network ≠ NetworkTCP) (hu : N network ≠ NetworkUDP) :
    (h.multiplexDialer = none →
      Badsocks.DialContext N h ctx network d w =
        (Outcome.ret (Conn.nil, some (Error.extend Error.ErrUnknownNetwork network)), h, w)) ∧
    (∀ m, h.multiplexDialer = some m →
      Badsocks.DialContext N h ctx network d w =
        (Outcome.ret (m.DialContext (attachMetadata ctx h.tag d) network d w.ext).1, h,
          ⟨(m.DialContext (attachMetadata ctx h.tag d) network d w.ext).2,
            w.calls ++ [Call.muxDialContext network d]⟩)) := by
  constructor
  · intro hm
    unfold Badsocks.DialContext badsocksDialer.DialContext
    simp only [hm, if_neg ht, if_neg hu]
  · intro m hm
    unfold Badsocks.DialContext
    simp only [hm, if_neg ht, if_neg hu]

/-- C4, amended, on the network `unix` for an adapter without multiplexing and
on the network `ip` for one with the client `demoMux`. -/
theorem unknown_network_rejected_without_mux_witness :
    NetworkNameStd "unix" ≠ NetworkTCP ∧ NetworkNameStd "unix" ≠ NetworkUDP ∧
    (Badsocks.DialContext NetworkNameStd (demoAdapter none none) ctx0 "unix"
        ⟨"example.com", 443⟩ w0).1 =
      Outcome.ret (Conn.nil, some (Error.extend Error.ErrUnknownNetwork "unix")) ∧
    (Badsocks.DialContext NetworkNameStd (demoAdapter none none) ctx0 "unix"
        ⟨"example.com", 443⟩ w0).2.2.calls = [] ∧
    (Badsocks.DialContext NetworkNameStd (demoAdapter none (some demoMux)) ctx0 "ip"
        ⟨"example.com", 443⟩ w0).2.2.calls =
      [Call.muxDialContext "ip" ⟨"example.com", 443⟩] := by
  have key := (unknown_network_rejected_without_mux NetworkNameStd (demoAdapter none none)
    ctx0 "unix" ⟨"example.com", 443⟩ w0 (by decide) (by decide)).1 rfl
  have key2 := (unknown_network_rejected_without_mux NetworkNameStd
    (demoAdapter none (some demoMux)) ctx0 "ip" ⟨"example.com", 443⟩ w0 (by decide)
    (by decide)).2 demoMux rfl
  refine ⟨by decide, by decide, ?_, ?_, ?_⟩
  · rw [key]
  · rw [key]; rfl
  · rw [key2]; rfl

/-! ## Failures of the generic dialer -/

/-- C9. On the raw dial path an error of the generic dialer is returned as
it is, with no connection, after exactly one call on the generic dialer and no
call on the cipher method: for `badsocksDialer.DialContext` with a network
normalising to `tcp` or to `udp`, for `badsocksDialer.ListenPacket`, and so for
`Badsocks.DialContext` with a network normalising to `tcp` on an adapter
without a multiplexing client (after its one log line). -/
theorem dial_failure_surfaced_unchanged {σ : Type} (N : String → String) (h : Badsocks σ)
    (ctx : Context) (network : String) (d : Socksaddr) (w : World σ) (e : Error) :
    (∀ r, N network = NetworkTCP →
      h.dialer.DialContext (attachMetadata ctx h.tag d) NetworkTCP h.serverAddr w.ext = r →
      r.1.2 = some e →
      badsocksDialer.DialContext N h ctx network d w =
        ((Conn.nil, some e), h,
          ⟨r.2, w.calls ++ [Call.dialerDialContext NetworkTCP h.serverAddr]⟩)) ∧
    (∀ r, N network = NetworkUDP →
      h.dialer.DialContext (attachMetadata ctx h.tag d) NetworkUDP h.serverAddr w.ext = r →
      r.1.2 = some e →
      badsocksDialer.DialContext N h ctx network d w =
        ((Conn.nil, some e), h,
          ⟨r.2, w.calls ++ [Call.dialerDialContext NetworkUDP h.serverAddr]⟩)) ∧
    (∀ r,
      h.dialer.DialContext (attachMetadata ctx h.tag d) NetworkUDP h.serverAddr w.ext = r →
      r.1.2 = some e →
      badsocksDialer.ListenPacket h ctx d w =
        ((Conn.nil, some e), h,
          ⟨r.2, w.calls ++ [Call.dialerDialContext NetworkUDP h.serverAddr]⟩)) ∧
    (∀ r, h.multiplexDialer = none → N network = NetworkTCP →
      h.dialer.DialContext (attachMetadata ctx h.tag d) NetworkTCP h.serverAddr
        (h.logger.InfoContext (attachMetadata ctx h.tag d) "outbound connection to " d
          w.ext) = r →
      r.1.2 = some e →
      Badsocks.DialContext N h ctx network d w =
        (Outcome.ret (Conn.nil, some e), h,
          ⟨r.2, w.calls ++ [Call.InfoContext "outbound connection to " d,
            Call.dialerDialContext NetworkTCP h.serverAddr]⟩)) := by
  refine ⟨?_, ?_, ?_, ?_⟩
  · intro r hN hr he
    subst hr
    unfold badsocksDialer.DialContext
    simp only [hN, if_true, callDialer, he]
  · intro r hN hr he
    subst hr
    unfold badsocksDialer.DialContext
    simp only [hN, if_neg NetworkUDP_ne_NetworkTCP, if_true, callDialer, he]
  · intro r hr he
    subst hr
    unfold badsocksDialer.ListenPacket
    simp only [callDialer, he]
  · intro r hm hN hr he
    subst hr
    unfold Badsocks.DialContext badsocksDialer.DialContext
    simp only [hm, hN, if_true, attachMetadata_idem, callDialer, logInfo, he]
    simp

/-- C9, on an adapter whose generic dialer refuses every connection. -/
theorem dial_failure_surfaced_unchanged_witness :
    badsocksDialer.DialContext NetworkNameStd
        { demoAdapter none none with dialer := refusingDialer } ctx0 "tcp"
        ⟨"example.com", 443⟩ w0 =
      ((Conn.nil, some (Error.other "connection refused")),
        { demoAdapter none none with dialer := refusingDialer },
        ⟨1, [Call.dialerDialContext "tcp" ⟨"proxy.example", 8388⟩]⟩) ∧
    badsocksDialer.DialContext NetworkNameStd
        { demoAdapter none none with dialer := refusingDialer } ctx0 "udp"
        ⟨"example.com", 53⟩ w0 =
      ((Conn.nil, some (Error.other "connection refused")),
        { demoAdapter none none with dialer := refusingDialer },
        ⟨1, [Call.dialerDialContext "udp" ⟨"proxy.example", 8388⟩]⟩) ∧
    badsocksDialer.ListenPacket
        { demoAdapter none none with dialer := refusingDialer } ctx0 ⟨"example.com", 53⟩ w0 =
      ((Conn.nil, some (Error.other "connection refused")),
        { demoAdapter none none with dialer := refusingDialer },
        ⟨1, [Call.dialerDialContext "udp" ⟨"proxy.example", 8388⟩]⟩) ∧
    Badsocks.DialContext NetworkNameStd
        { demoAdapter none none with dialer := refusingDialer } ctx0 "tcp"
        ⟨"example.com", 443⟩ w0 =
      (Outcome.ret (Conn.nil, some (Error.other "connection refused")),
        { demoAdapter none none with dialer := refusingDialer },
        ⟨2, [Call.InfoContext "outbound connection to " ⟨"example.com", 443⟩,
          Call.dialerDialContext "tcp" ⟨"proxy.example", 8388⟩]⟩) :=
  ⟨(dial_failure_surfaced_unchanged NetworkNameStd
      { demoAdapter none none with dialer := refusingDialer } ctx0 "tcp"
      ⟨"example.com", 443⟩ w0 (Error.other "connection refused")).1 _ (by decide) rfl rfl,
    (dial_failure_surfaced_unchanged NetworkNameStd
      { demoAdapter none none with dialer := refusingDialer } ctx0 "udp"
      ⟨"example.com", 53⟩ w0 (Error.other "connection refused")).2.1 _ (by decide) rfl rfl,
    (dial_failure_surfaced_unchanged NetworkNameStd
      { demoAdapter none none with dialer := refusingDialer } ctx0 "udp"
      ⟨"example.com", 53⟩ w0 (Error.other "connection refused")).2.2.1 _ rfl rfl,
    (dial_failure_surfaced_unchanged NetworkNameStd
      { demoAdapter none none with dialer := refusingDialer } ctx0 "tcp"
      ⟨"example.com", 443⟩ w0 (Error.other "connection refused")).2.2.2 _ rfl (by decide)
      rfl rfl⟩

/-! ## Interface updates and closing -/

/-- C6. `Badsocks.InterfaceUpdated` returns a nil error on every adapter.
Without a multiplexing client it changes nothing and calls nothing; with the
client `m` its one call is `m.Reset`, and the adapter is left as it was. -/
theorem interface_updated_never_fails {σ : Type} (h : Badsocks σ) (w : World σ) :
    (Badsocks.InterfaceUpdated h w).1 = none ∧
    (h.multiplexDialer = none → Badsocks.InterfaceUpdated h w = (none, h, w)) ∧
    (∀ m, h.multiplexDialer = some m →
      Badsocks.InterfaceUpdated h w =
        (none, h, ⟨m.Reset w.ext, w.calls ++ [Call.muxReset]⟩)) := by
  refine ⟨?_, ?_, ?_⟩
  · unfold Badsocks.InterfaceUpdated
    cases h.multiplexDialer <;> rfl
  · intro hm
    unfold Badsocks.InterfaceUpdated
    simp only [hm]
  · intro m hm
    unfold Badsocks.InterfaceUpdated
    simp only [hm]

/-- C7. `Badsocks.Close` on an adapter without a multiplexing client returns
nil, calls nothing and changes nothing. With the client `m` it calls `m.Close`
once and returns the very error (or nil) that call returned; this is its only
call, so nothing is closed on the tunneling client. -/
theorem close_propagates_mux_close {σ : Type} (h : Badsocks σ) (w : World σ) :
    (h.multiplexDialer = none → Badsocks.Close h w = (none, h, w)) ∧
    (∀ m, h.multiplexDialer = some m →
      Badsocks.Close h w =
        ((m.Close w.ext).1, h, ⟨(m.Close w.ext).2, w.calls ++ [Call.Close]⟩) ∧
      ((Badsocks.Close h w).1.isSome = true ↔ (m.Close w.ext).1.isSome = true)) := by
  constructor
  · intro hm
    unfold Badsocks.Close
    simp [hm, PtrOrNil, commonClose]
  · intro m hm
    have key : Badsocks.Close h w =
        ((m.Close w.ext).1, h, ⟨(m.Close w.ext).2, w.calls ++ [Call.Close]⟩) := by
      unfold Badsocks.Close
      simp only [hm, PtrOrNil, commonClose, List.foldl_cons, List.foldl_nil]
      cases (m.Close w.ext).1 <;> rfl
    exact ⟨key, by rw [key]⟩

/-- C7, on an adapter without clients and on one whose multiplexing client
fails to close. -/
theorem close_propagates_mux_close_witness :
    (Badsocks.Close (demoAdapter none none) w0).1 = none ∧
    (Badsocks.Close (demoAdapter none none) w0).2.2.calls = [] ∧
    (Badsocks.Close (demoAdapter none (some failingCloseMux)) w0).1 =
      some (Error.other "close failed") ∧
    (Badsocks.Close (demoAdapter none (some failingCloseMux)) w0).2.2.calls = [Call.Close] := by
  have k1 := (close_propagates_mux_close (demoAdapter none none) w0).1 rfl
  have k2 := ((close_propagates_mux_close (demoAdapter none (some failingCloseMux)) w0).2
    failingCloseMux rfl).1
  refine ⟨?_, ?_, ?_, ?_⟩
  · rw [k1]
  · rw [k1]; rfl
  · rw [k2]; rfl
  · rw [k2]; rfl

/-- C6, on an adapter without clients and on one with the client `demoMux`. -/
theorem interface_updated_never_fails_witness :
    (Badsocks.InterfaceUpdated (demoAdapter none none) w0).1 = none ∧
    (Badsocks.InterfaceUpdated (demoAdapter none none) w0).2.2.calls = [] ∧
    (Badsocks.InterfaceUpdated (demoAdapter none (some demoMux)) w0).1 = none ∧
    (Badsocks.InterfaceUpdated (demoAdapter none (some demoMux)) w0).2.2.calls =
      [Call.muxReset] := by
  have k1 := (interface_updated_never_fails (demoAdapter none none) w0).2.1 rfl
  have k2 := (interface_updated_never_fails (demoAdapter none (some demoMux)) w0).2.2
    demoMux rfl
  refine ⟨?_, ?_, ?_, ?_⟩
  · rw [k1]
  · rw [k1]; rfl
  · rw [k2]
  · rw [k2]; rfl

/-! ## Construction and the mode of an adapter -/

/-- The raw dialer reads the tag, the generic dialer, the cipher method and the
server address of the adapter and nothing else: two adapters that agree on
these give the same `N.Dialer`. So the dialer handed to the clients during
construction is the dialer of the finished adapter. -/
theorem badsocksDialer.asDialer_congr {σ : Type} (N : String → String) (h k : Badsocks σ)
    (htag : h.tag = k.tag) (hd : h.dialer = k.dialer) (hmeth : h.method = k.method)
    (hs : h.serverAddr = k.serverAddr) :
    badsocksDialer.asDialer N h = badsocksDialer.asDialer N k := by
  unfold badsocksDialer.asDialer
  congr 1
  · funext ctx network destination s
    unfold badsocksDialer.DialContext callDialer callDialEarlyConn callDialPacketConn
    simp only [htag, hd, hmeth, hs]
    by_cases ht : N network = NetworkTCP
    · simp only [if_pos ht]
      cases (k.dialer.DialContext (attachMetadata ctx k.tag destination) NetworkTCP
        k.serverAddr s).1.2 <;> rfl
    · by_cases hu : N network = NetworkUDP
      · simp only [if_neg ht, if_pos hu]
        cases (k.dialer.DialContext (attachMetadata ctx k.tag destination) NetworkUDP
          k.serverAddr s).1.2 <;> rfl
      · simp only [if_neg ht, if_neg hu]
  · funext ctx destination s
    unfold badsocksDialer.ListenPacket callDialer callDialPacketConn
    simp only [htag, hd, hmeth, hs]
    cases (k.dialer.DialContext (attachMetadata ctx k.tag destination) NetworkUDP
      k.serverAddr s).1.2 <;> rfl

/-- Every method gives back the adapter it was called on. -/
theorem step_adapter {σ : Type} (N : String → String) (relay : Relay σ)
    (hw : Badsocks σ × World σ) (op : Op) : (step N relay hw op).1 = hw.1 := by
  cases op with
  | DialContext ctx network destination =>
    simp only [step]
    unfold Badsocks.DialContext badsocksDialer.DialContext
    cases hw.1.multiplexDialer with
    | none =>
      simp only
      split
      · split <;> rfl
      · split
        · rfl
        · rfl
    | some m => rfl
  | ListenPacket ctx destination =>
    simp only [step]
    unfold Badsocks.ListenPacket
    cases hw.1.multiplexDialer <;> rfl
  | NewConnection ctx conn metadata => rfl
  | NewPacketConnection ctx conn metadata => rfl
  | InterfaceUpdated =>
    simp only [step]
    unfold Badsocks.InterfaceUpdated
    cases hw.1.multiplexDialer <;> rfl
  | Close => rfl

theorem run_adapter {σ : Type} (N : String → String) (relay : Relay σ) (ops : List Op) :
    ∀ hw : Badsocks σ × World σ, (run N relay ops hw).1 = hw.1 := by
  induction ops with
  | nil => intro hw; rfl
  | cons op ops ih =>
    intro hw
    have h1 : run N relay (op :: ops) hw = run N relay ops (step N relay hw op) := rfl
    rw [h1, ih, step_adapter]

/-- C5. An adapter `h` returned by `NewBadsocks` with a nil error never has
both clients: its multiplexing client is the one the constructor
`mux.NewClientWithOptions` returned for the adapter's raw dialer, and its
tunneling client is set exactly when that is nil. The choice is fixed: after
any sequence of calls of `DialContext`, `ListenPacket`, `NewConnection`,
`NewPacketConnection`, `InterfaceUpdated` and `Close` the adapter is the one
that was built, both fields included. -/
theorem mode_fixed_at_construction {σ : Type} (N : String → String) (deps : Deps σ)
    (ctx : Context) (router : Router) (logger : ContextLogger σ) (tag : String)
    (options : BadsocksOutboundOptions) (w : World σ) (h : Badsocks σ)
    (hnew : (NewBadsocks N deps ctx router logger tag options w).1 = (some h, none)) :
    ¬ (h.uotClient.isSome = true ∧ h.multiplexDialer.isSome = true) ∧
    (∃ s, h.multiplexDialer =
      (deps.NewClientWithOptions (badsocksDialer.asDialer N h)
        (PtrValueOrDefault options.MultiplexOptions) s).1.1) ∧
    (h.uotClient.isSome = true ↔ h.multiplexDialer.isNone = true) ∧
    (∀ (relay : Relay σ) (ops : List Op) (w1 : World σ),
      (run N relay ops (h, w1)).1 = h ∧
      (run N relay ops (h, w1)).1.uotClient.isSome = h.uotClient.isSome ∧
      (run N relay ops (h, w1)).1.multiplexDialer.isSome = h.multiplexDialer.isSome) := by
  have hrun : ∀ (relay : Relay σ) (ops : List Op) (w1 : World σ),
      (run N relay ops (h, w1)).1 = h ∧
      (run N relay ops (h, w1)).1.uotClient.isSome = h.uotClient.isSome ∧
      (run N relay ops (h, w1)).1.multiplexDialer.isSome = h.multiplexDialer.isSome := by
    intro relay ops w1
    have e := run_adapter N relay ops (h, w1)
    simp only at e
    exact ⟨e, by rw [e], by rw [e]⟩
  unfold NewBadsocks at hnew
  simp only at hnew
  split at hnew
  · simp at hnew
  · split at hnew
    · simp at hnew
    · split at hnew
      · rename_i hc
        simp only [Prod.mk.injEq, Option.some.injEq, and_true] at hnew
        subst hnew
        refine ⟨?_, ?_, ?_, hrun⟩
        · simp [hc]
        · exact ⟨_, congrArg (fun dl => (deps.NewClientWithOptions dl _ _).1.1)
            (badsocksDialer.asDialer_congr N _ _ rfl rfl rfl rfl)⟩
        · simp [hc]
      · rename_i m hc
        simp only [Prod.mk.injEq, Option.some.injEq, and_true] at hnew
        subst hnew
        refine ⟨?_, ?_, ?_, hrun⟩
        · simp
        · exact ⟨_, congrArg (fun dl => (deps.NewClientWithOptions dl _ _).1.1)
            (badsocksDialer.asDialer_congr N _ _ rfl rfl rfl rfl)⟩
        · simp [hc]

/-- C5, on the two adapters `NewBadsocks` builds for the server
`proxy.example:8388`: without multiplex options the tunneling client alone is
set, with multiplexing enabled the multiplexing client alone, and a run of all
six methods leaves the mode as it was. -/
theorem mode_fixed_at_construction_witness :
    (NewBadsocks NetworkNameStd demoDeps ctx0 ⟨0⟩ demoLogger "bad-out" (demoOptions none)
        w0).1 =
      (some (demoAdapter
        (some (demoUot (badsocksDialer.asDialer NetworkNameStd (demoAdapter none none))))
        none), none) ∧
    (NewBadsocks NetworkNameStd demoDeps ctx0 ⟨0⟩ demoLogger "bad-out"
        (demoOptions (some ⟨true, 4, 0, 0⟩)) w0).1 =
      (some (demoAdapter none (some demoMux)), none) ∧
    (run NetworkNameStd demoRelay
        [Op.DialContext ctx0 "tcp" ⟨"example.com", 443⟩, Op.ListenPacket ctx0 ⟨"example.com", 53⟩,
          Op.NewConnection ctx0 (Conn.handle 7) ⟨"", ⟨"example.com", 80⟩⟩,
          Op.NewPacketConnection ctx0 (Conn.handle 8) ⟨"", ⟨"example.com", 53⟩⟩,
          Op.InterfaceUpdated, Op.Close]
        (demoAdapter none (some demoMux), w0)).1.multiplexDialer.isSome =
      (demoAdapter none (some demoMux)).multiplexDialer.isSome :=
  ⟨rfl, rfl,
    ((mode_fixed_at_construction NetworkNameStd demoDeps ctx0 ⟨0⟩ demoLogger "bad-out"
      (demoOptions (some ⟨true, 4, 0, 0⟩)) w0 (demoAdapter none (some demoMux)) rfl).2.2.2
      demoRelay _ w0).2.2⟩

/-- C8. `NewBadsocks` returns either an adapter and a nil error or no adapter
and an error. When the cipher method's constructor rejects the password it
returns that error, having called nothing else (no dialer and no client is
built). When that succeeds and the multiplexing constructor, called on the raw
dialer, returns an error, it returns that error. Otherwise it returns an
adapter with the given tag, the network kinds `tcp` and `udp`, the server
address built from the server options, the dialer and the method just made,
and the multiplexing client the constructor returned. -/
theorem NewBadsocks_adapter_or_error {σ : Type} (N : String → String) (deps : Deps σ)
    (ctx : Context) (router : Router) (logger : ContextLogger σ) (tag : String)
    (options : BadsocksOutboundOptions) (w : World σ) :
    ((∃ h, (NewBadsocks N deps ctx router logger tag options w).1 = (some h, none)) ∨
      (∃ err, (NewBadsocks N deps ctx router logger tag options w).1 = (none, some err))) ∧
    (∀ err,
      (deps.NewMethod ctx deps.MethodName ⟨options.Password⟩ w.ext).1 = Except.error err →
      NewBadsocks N deps ctx router logger tag options w =
        ((none, some err),
          ⟨(deps.NewMethod ctx deps.MethodName ⟨options.Password⟩ w.ext).2,
            w.calls ++ [Call.NewMethod deps.MethodName options.Password]⟩)) ∧
    (∀ method dl c (k : Badsocks σ),
      (deps.NewMethod ctx deps.MethodName ⟨options.Password⟩ w.ext).1 = Except.ok method →
      deps.dialerNew router options.toDialerOptions
        (deps.NewMethod ctx deps.MethodName ⟨options.Password⟩ w.ext).2 = dl →
      k.tag = tag → k.dialer = dl.1 → k.method = method →
      k.serverAddr = deps.Build options.toServerOptions →
      deps.NewClientWithOptions (badsocksDialer.asDialer N k)
        (PtrValueOrDefault options.MultiplexOptions) dl.2 = c →
      (∀ err, c.1.2 = some err →
        NewBadsocks N deps ctx router logger tag options w =
          ((none, some err),
            ⟨c.2, w.calls ++ [Call.NewMethod deps.MethodName options.Password,
              Call.dialerNew, Call.NewClientWithOptions]⟩)) ∧
      (c.1.2 = none →
        ∃ h, NewBadsocks N deps ctx router logger tag options w =
            ((some h, none),
              ⟨c.2, w.calls ++ [Call.NewMethod deps.MethodName options.Password,
                Call.dialerNew, Call.NewClientWithOptions]⟩) ∧
          h.tag = tag ∧ h.network = [NetworkTCP, NetworkUDP] ∧
          h.serverAddr = deps.Build options.toServerOptions ∧
          h.protocol = deps.TypeShadowsocks ∧
          h.dialer = dl.1 ∧ h.method = method ∧ h.multiplexDialer = c.1.1)) := by
  refine ⟨?_, ?_, ?_⟩
  · unfold NewBadsocks
    simp only
    split
    · exact Or.inr ⟨_, rfl⟩
    · split
      · exact Or.inr ⟨_, rfl⟩
      · split
        · exact Or.inl ⟨_, rfl⟩
        · exact Or.inl ⟨_, rfl⟩
  · intro err he
    unfold NewBadsocks
    simp only [he]
  · intro method dl c k hM hD htag hdl hmeth hsrv hC
    subst hD
    have hk : badsocksDialer.asDialer N k = badsocksDialer.asDialer N
        { protocol := deps.TypeShadowsocks, network := [NetworkTCP, NetworkUDP],
          router := router, logger := logger, tag := tag,
          dialer := (deps.dialerNew router options.toDialerOptions
            (deps.NewMethod ctx deps.MethodName ⟨options.Password⟩ w.ext).2).1,
          method := method, serverAddr := deps.Build options.toServerOptions,
          uotClient := none,
          multiplexDialer := none } :=
      badsocksDialer.asDialer_congr N _ _ htag hdl hmeth hsrv
    rw [hk] at hC
    constructor
    · intro err he
      unfold NewBadsocks
      simp only [hM, hC, he, List.append_assoc, List.cons_append, List.nil_append]
    · intro hnone
      unfold NewBadsocks
      simp only [hM, hC, hnone, List.append_assoc, List.cons_append, List.nil_append]
      cases hc1 : c.1.1 with
      | none => exact ⟨_, rfl, rfl, rfl, rfl, rfl, rfl, rfl, rfl⟩
      | some m => exact ⟨_, rfl, rfl, rfl, rfl, rfl, rfl, rfl, rfl⟩

/-- C8, on three constructions for the server `proxy.example:8388`: an empty
password, a failing multiplexing constructor, and the scenario of the spec. -/
theorem NewBadsocks_adapter_or_error_witness :
    NewBadsocks NetworkNameStd demoDeps ctx0 ⟨0⟩ demoLogger "bad-out"
        { demoOptions none with Password := "" } w0 =
      ((none, some (Error.other "missing password")), ⟨0, [Call.NewMethod "badsocks" ""]⟩) ∧
    NewBadsocks NetworkNameStd brokenMuxDeps ctx0 ⟨0⟩ demoLogger "bad-out" (demoOptions none)
        w0 =
      ((none, some (Error.other "unknown protocol")),
        ⟨0, [Call.NewMethod "badsocks" "p@ss", Call.dialerNew, Call.NewClientWithOptions]⟩) ∧
    (∃ h, NewBadsocks NetworkNameStd demoDeps ctx0 ⟨0⟩ demoLogger "bad-out" (demoOptions none)
        w0 =
        ((some h, none),
          ⟨0, [Call.NewMethod "badsocks" "p@ss", Call.dialerNew, Call.NewClientWithOptions]⟩) ∧
      h.tag = "bad-out" ∧ h.network = ["tcp", "udp"] ∧
      h.serverAddr = ⟨"proxy.example", 8388⟩) := by
  refine ⟨?_, ?_, ?_⟩
  · exact (NewBadsocks_adapter_or_error NetworkNameStd demoDeps ctx0 ⟨0⟩ demoLogger "bad-out"
      { demoOptions none with Password := "" } w0).2.1 _ rfl
  · exact ((NewBadsocks_adapter_or_error NetworkNameStd brokenMuxDeps ctx0 ⟨0⟩ demoLogger
      "bad-out" (demoOptions none) w0).2.2 demoMethod _ _ (demoAdapter none none)
      rfl rfl rfl rfl rfl rfl rfl).1 _ rfl
  · obtain ⟨h, h1, h2, h3, h4, _⟩ := ((NewBadsocks_adapter_or_error NetworkNameStd demoDeps
      ctx0 ⟨0⟩ demoLogger "bad-out" (demoOptions none) w0).2.2 demoMethod _ _
      (demoAdapter none none) rfl rfl rfl rfl rfl rfl rfl).2 rfl
    exact ⟨h, h1, h2, h3, h4⟩

/-! ## Datagram traffic of an adapter built without multiplexing -/

/-- An adapter built by `NewBadsocks` without a multiplexing client has the
tunneling client over its own raw dialer. -/
theorem NewBadsocks_uotClient {σ : Type} (N : String → String) (deps : Deps σ)
    (ctx : Context) (router : Router) (logger : ContextLogger σ) (tag : String)
    (options : BadsocksOutboundOptions) (w : World σ) (h : Badsocks σ)
    (hnew : (NewBadsocks N deps ctx router logger tag options w).1 = (some h, none))
    (hm : h.multiplexDialer = none) :
    h.uotClient = some (deps.uotClient (badsocksDialer.asDialer N h)) := by
  unfold NewBadsocks at hnew
  simp only at hnew
  split at hnew
  · simp at hnew
  · split at hnew
    · simp at hnew
    · split at hnew
      · simp only [Prod.mk.injEq, Option.some.injEq, and_true] at hnew
        subst hnew
        exact congrArg (fun dl => some (deps.uotClient dl))
          (badsocksDialer.asDialer_congr N _ _ rfl rfl rfl rfl)
      · rename_i m hc
        simp only [Prod.mk.injEq, Option.some.injEq, and_true] at hnew
        subst hnew
        simp [hc] at hm

/-- C3. An adapter `h` built by `NewBadsocks` without a multiplexing client
has a tunneling client `u`, and hands its datagram traffic to it: a dial whose
network normalises to `udp` returns exactly what `u.DialContext` returns for
the same network and destination, and `Badsocks.ListenPacket` returns exactly
what `u.ListenPacket` returns for the destination. In both the adapter logs one
line and makes the one call on `u`: it does not call the generic dialer. -/
theorem plain_datagram_goes_to_tunnel {σ : Type} (N : String → String) (deps : Deps σ)
    (ctxNew : Context) (router : Router) (logger : ContextLogger σ) (tag : String)
    (options : BadsocksOutboundOptions) (wNew : World σ) (h : Badsocks σ)
    (ctx : Context) (network : String) (d : Socksaddr) (w : World σ)
    (hnew : (NewBadsocks N deps ctxNew router logger tag options wNew).1 = (some h, none))
    (hm : h.multiplexDialer = none) (hN : N network = NetworkUDP) :
    ∃ u, h.uotClient = some u ∧
      Badsocks.DialContext N h ctx network d w =
        (Outcome.ret (u.DialContext (attachMetadata ctx h.tag d) network d
            (h.logger.InfoContext (attachMetadata ctx h.tag d)
              "outbound connect packet connection to " d w.ext)).1, h,
          ⟨(u.DialContext (attachMetadata ctx h.tag d) network d
            (h.logger.InfoContext (attachMetadata ctx h.tag d)
              "outbound connect packet connection to " d w.ext)).2,
            w.calls ++ [Call.InfoContext "outbound connect packet connection to " d,
              Call.uotDialContext network d]⟩) ∧
      Badsocks.ListenPacket h ctx d w =
        (Outcome.ret (u.ListenPacket (attachMetadata ctx h.tag d) d
            (h.logger.InfoContext (attachMetadata ctx h.tag d)
              "outbound packet connection to " d w.ext)).1, h,
          ⟨(u.ListenPacket (attachMetadata ctx h.tag d) d
            (h.logger.InfoContext (attachMetadata ctx h.tag d)
              "outbound packet connection to " d w.ext)).2,
            w.calls ++ [Call.InfoContext "outbound packet connection to " d,
              Call.uotListenPacket d]⟩) :=
  ⟨_, NewBadsocks_uotClient N deps ctxNew router logger tag options wNew h hnew hm,
    tunnel_dispatch N h _ ctx network d w hm
      (NewBadsocks_uotClient N deps ctxNew router logger tag options wNew h hnew hm) hN⟩

/-- C3, on the adapter that `NewBadsocks` builds for the scenario of the spec
(server `proxy.example:8388`, password `p@ss`, no multiplex options): a `udp`
dial to `example.com:53` is one log line and one call on the tunneling
client, which dials its stream through the raw dialer. -/
theorem plain_datagram_goes_to_tunnel_witness :
    (NewBadsocks NetworkNameStd demoDeps ctx0 ⟨0⟩ demoLogger "bad-out" (demoOptions none)
        w0).1 =
      (some (demoAdapter
        (some (demoUot (badsocksDialer.asDialer NetworkNameStd (demoAdapter none none))))
        none), none) ∧
    NetworkNameStd "udp" = NetworkUDP ∧
    (Badsocks.DialContext NetworkNameStd
        (demoAdapter
          (some (demoUot (badsocksDialer.asDialer NetworkNameStd (demoAdapter none none))))
          none)
        ctx0 "udp" ⟨"example.com", 53⟩ w0).1 = Outcome.ret (Conn.handle 1002, none) ∧
    (Badsocks.DialContext NetworkNameStd
        (demoAdapter
          (some (demoUot (badsocksDialer.asDialer NetworkNameStd (demoAdapter none none))))
          none)
        ctx0 "udp" ⟨"example.com", 53⟩ w0).2.2.calls =
      [Call.InfoContext "outbound connect packet connection to " ⟨"example.com", 53⟩,
        Call.uotDialContext "udp" ⟨"example.com", 53⟩] := by
  obtain ⟨u, hu, key, _⟩ := plain_datagram_goes_to_tunnel NetworkNameStd demoDeps ctx0 ⟨0⟩
    demoLogger "bad-out" (demoOptions none) w0
    (demoAdapter
      (some (demoUot (badsocksDialer.asDialer NetworkNameStd (demoAdapter none none)))) none)
    ctx0 "udp" ⟨"example.com", 53⟩ w0 rfl rfl (by decide)
  refine ⟨rfl, by decide, by decide, ?_⟩
  rw [key]
  rfl

/-! ## Datagram dials without a multiplexing client -/

end Outbound
